import Mathlib

/-!
Shallow embedding of the payment-orchestration core of `src/server.js`
(Research Summits payment gateway).

Conventions of the embedding:
- JavaScript numbers are modelled as exact rationals (ℚ); JSON request
  bodies cannot carry NaN or Infinity, and all amounts in the claims are
  ordinary decimals, so ℚ is faithful for every path the claims touch.
- JavaScript truthiness is modelled explicitly where the source branches
  on it: a string is falsy exactly when empty, a number exactly when it
  is zero, null is falsy, objects and arrays are truthy.
- Network effects (the config fetch, the events fetch, the Stripe call)
  are modelled as explicit inputs: a fetch outcome is an `Except` value,
  the processor behaviour is a `ProcResponse` value, and "the processor
  was invoked with amount n" is recorded as a `some n` component of the
  result instead of a side effect.
-/

namespace PaymentGateway

/-- JSON values as produced by `JSON.parse` in `loadConfig` / `loadEvents`.
Only the shape and JavaScript truthiness matter to the claims. -/
inductive Js where
  | jnull
  | jbool (b : Bool)
  | jnum (q : ℚ)
  | jstr (s : String)
  | jarr (elems : List Js)
  | jobj (fields : List (String × Js))

/-- JavaScript truthiness of a JSON value: null, false, 0 and the empty
string are falsy; every object and array is truthy. -/
def jsTruthy : Js → Bool
  | .jnull => false
  | .jbool b => b
  | .jnum q => decide (q ≠ 0)
  | .jstr s => decide (s ≠ "")
  | .jarr _ => true
  | .jobj _ => true

/-- The fallback written by `getStripeConfig` when `loadConfig` rejects:
`CONFIG = \x7b stripe: \x7b\x7d \x7d` (src/server.js line 52). -/
def fallbackConfig : Js := .jobj [("stripe", .jobj [])]

/-- One call to `getStripeConfig` (src/server.js lines 46-54), restricted
to its caching behaviour. The state is the global `CONFIG` variable
(initially null). The guard is the literal `if (!CONFIG)` of the source,
i.e. a truthiness test, not an initialized flag. Returns the new value of
`CONFIG` and whether a remote fetch attempt was made on this call;
`outcome` is what that fetch attempt would produce. -/
def getStripeConfigOnce (outcome : Except Unit Js) (config : Js) : Js × Bool :=
  if jsTruthy config then (config, false)
  else
    match outcome with
    | .ok v => (v, true)
    | .error _ => (fallbackConfig, true)

/-- Number of remote fetch attempts made by a sequence of calls to
`getStripeConfig`, one prospective fetch outcome per call, starting from
a given `CONFIG` state. -/
def fetchCount : List (Except Unit Js) → Js → ℕ
  | [], _ => 0
  | o :: os, c =>
    let step := getStripeConfigOnce o c
    (if step.2 then 1 else 0) + fetchCount os step.1

/-- An entry of the remote events catalog (events.json), as consumed by
`events.find(e => e.eventId === eventId)` in src/server.js. -/
structure EventRecord where
  eventId : String
  eventName : String
  eventDescription : String
  cost : ℚ
  deriving DecidableEq

/-- Failure modes of `loadEvents` (src/server.js lines 69-95): the promise
rejects on a transport error or on malformed JSON. -/
inductive LoadErr where
  | fetchErr
  | parseErr
  deriving DecidableEq

/-- Numeric value of a list of decimal digit characters, most significant
first. -/
def digitsVal (ds : List Char) : ℕ :=
  ds.foldl (fun n c => 10 * n + (c.toNat - 48)) 0

/-- Character-level scan of a decimal literal: an optional sign, decimal
digits, an optional fractional part; trailing garbage is ignored. Returns
the sign, the digits read as one integer (integer and fraction digits
concatenated) and the number of fraction digits; `none` when no digit
can be read. -/
def scanDecimal (cs : List Char) : Option (Bool × ℕ × ℕ) :=
  let signed : Bool × List Char :=
    match cs with
    | '-' :: rest => (true, rest)
    | '+' :: rest => (false, rest)
    | _ => (false, cs)
  let intPart := signed.2.takeWhile Char.isDigit
  let afterInt := signed.2.dropWhile Char.isDigit
  let fracPart : List Char :=
    match afterInt with
    | '.' :: r => r.takeWhile Char.isDigit
    | _ => []
  if intPart.isEmpty && fracPart.isEmpty then none
  else some (signed.1, digitsVal (intPart ++ fracPart), fracPart.length)

/-- Model of the JavaScript `parseFloat` builtin as used on
`req.query.pay` (src/server.js line 220): the sign and digits denote the
exact decimal value; `none` stands for NaN. The whitespace-skipping,
exponent and Infinity forms of the builtin are not modelled (no claim
depends on them). -/
def parseFloat (s : String) : Option ℚ :=
  match scanDecimal s.toList with
  | none => none
  | some (neg, n, k) => some ((cond neg (-1) 1 : ℚ) * (n : ℚ) / (10 : ℚ) ^ k)

/-- Outcome of the `GET /payment/:eventId` handler (src/server.js lines
145-248), restricted to event lookup and amount resolution. `page a m`
is the rendered checkout page whose client script posts `amount: m` to
`/process-payment`, where `m` is the literal `eventCost * 100` of line
803 and `a` the resolved `eventCost`. -/
inductive PageResult where
  | notFound
  | invalidAmount
  | outOfRange
  | page (amount : ℚ) (minorUnits : ℚ)
  deriving DecidableEq

/-- The `GET /payment/:eventId` handler of src/server.js lines 145-248:
look the event up in the fetched catalog (404 when absent), then, when
`req.query.pay` is truthy (present and non-empty), validate it: first
`isNaN(customAmount) || customAmount <= 0` (line 221, invalid amount),
then `customAmount < 1 || customAmount > 10000` (line 234, out of range);
otherwise the catalog cost is used unvalidated. -/
def paymentPage (catalog : List EventRecord) (eventId : String) (pay : Option String) : PageResult :=
  match catalog.find? (fun e => e.eventId == eventId) with
  | none => .notFound
  | some ev =>
    match pay with
    | none => .page ev.cost (ev.cost * 100)
    | some s =>
      if s = "" then .page ev.cost (ev.cost * 100)
      else
        match parseFloat s with
        | none => .invalidAmount
        | some a =>
          if a ≤ 0 then .invalidAmount
          else if a < 1 ∨ a > 10000 then .outOfRange
          else .page a (a * 100)

/-- Outcome of the `GET /api/events/:eventId` handler: 200 with the event,
404 `Conference event not found`, or 500 `Unable to fetch conference
details` when `loadEvents` rejected. -/
inductive EventApiResult where
  | found (ev : EventRecord)
  | notFound
  | fetchFailure
  deriving DecidableEq

/-- The `GET /api/events/:eventId` handler of src/server.js lines
1407-1430: `loadEvents` rejection is caught and reported as a 500 fetch
failure; an absent id in a successfully fetched catalog is a 404
not-found response, not a thrown exception. -/
def getEventById (load : Except LoadErr (List EventRecord)) (eventId : String) : EventApiResult :=
  match load with
  | .error _ => .fetchFailure
  | .ok events =>
    match events.find? (fun e => e.eventId == eventId) with
    | none => .notFound
    | some ev => .found ev

/-- Behaviour of `stripe.charges.create` on one call: either it resolves
a charge object with a status, id and receipt url, or it throws an error
with a `type` and a `message` (the fields inspected by the catch block of
src/server.js lines 1367-1384). -/
inductive ProcResponse where
  | charge (status : String) (id : String) (receiptUrl : String)
  | exn (errType : String) (message : String)
  deriving DecidableEq

/-- Outcome of the `POST /process-payment` handler, as seen by the
caller. `succeeded` is the 200 body with chargeId and receiptUrl;
`declined` is the 400 `Payment was not successful` body (the
ProcessorDeclined category of the spec); `processorError m` is the 400
body produced by the catch block with message `m`. -/
inductive PayResult where
  | missingFields
  | amountTooSmall
  | eventNotFound
  | succeeded (chargeId : String) (receiptUrl : String)
  | declined
  | processorError (message : String)
  deriving DecidableEq

/-- The error-message mapping of the catch block of src/server.js lines
1367-1384: a StripeCardError passes its own message through; the two
other recognised types get fixed generic messages; every other error
type gets the fixed default `Payment failed. Please try again.`. -/
def mapStripeError (errType message : String) : String :=
  if errType = "StripeCardError" then message
  else if errType = "StripeInvalidRequestError" then "Invalid payment information"
  else if errType = "StripeAPIError" then "Payment service temporarily unavailable"
  else "Payment failed. Please try again."

/-- The `POST /process-payment` handler of src/server.js lines 1300-1385.
The first component is the response; the second is `some n` exactly when
`stripe.charges.create` was invoked, with `n = Math.round(amount)` the
amount passed to it (line 1328), and `none` when the processor was never
called. The presence check `!token || !eventId || !name || !email ||
!phone || !amount` is JavaScript truthiness: empty strings and a zero
amount count as missing. -/
def processPayment (catalog : List EventRecord) (token eventId name email phone : String)
    (amount : ℚ) (proc : ProcResponse) : PayResult × Option ℤ :=
  if token = "" ∨ eventId = "" ∨ name = "" ∨ email = "" ∨ phone = "" ∨ amount = 0 then
    (.missingFields, none)
  else if amount < 50 then
    (.amountTooSmall, none)
  else
    match catalog.find? (fun e => e.eventId == eventId) with
    | none => (.eventNotFound, none)
    | some _ =>
      match proc with
      | .charge status id url =>
        if status = "succeeded" then (.succeeded id url, some (round amount))
        else (.declined, some (round amount))
      | .exn t m => (.processorError (mapStripeError t m), some (round amount))

/-- End-to-end checkout: the payment page is rendered first; only a
rendered page (never a validation-error response) leads the client
script of lines 794-805 to post the page amount to `/process-payment`.
`none` means the flow stopped at the page handler. -/
def checkoutFlow (catalog : List EventRecord) (eventId : String) (pay : Option String)
    (token name email phone : String) (proc : ProcResponse) : Option (PayResult × Option ℤ) :=
  match paymentPage catalog eventId pay with
  | .page _ minor => some (processPayment catalog token eventId name email phone minor proc)
  | _ => none

/-- True exactly when the flow reached `stripe.charges.create`. -/
def chargeSubmitted (r : Option (PayResult × Option ℤ)) : Bool :=
  match r with
  | some (_, some _) => true
  | _ => false

/-- A one-event catalog used to instantiate theorems on concrete inputs,
mirroring the RS2025AI example of the health-check route. -/
def demoCatalog : List EventRecord :=
  [⟨"RS2025AI", "AI Summit", "Flagship research summit", 299⟩]

/-! ### Helper lemmas -/

theorem parseFloat_empty : parseFloat "" = none := rfl

theorem parseFloat_some_nonempty (s : String) (a : ℚ) (h : parseFloat s = some a) : s ≠ "" := by
  intro hs
  rw [hs, parseFloat_empty] at h
  exact Option.noConfusion h

theorem parseFloat_450 : parseFloat "450" = some 450 := by
  simp [parseFloat, show scanDecimal ['4', '5', '0'] = some (false, 450, 0) from by decide]

theorem parseFloat_half : parseFloat "0.5" = some (1 / 2) := by
  simp [parseFloat, show scanDecimal ['0', '.', '5'] = some (false, 5, 1) from by decide]
  norm_num

theorem parseFloat_neg5 : parseFloat "-5" = some (-5) := by
  simp [parseFloat, show scanDecimal ['-', '5'] = some (true, 5, 0) from by decide]

theorem parseFloat_20000 : parseFloat "20000" = some 20000 := by
  simp [parseFloat, show scanDecimal ['2', '0', '0', '0', '0'] = some (false, 20000, 0) from by decide]

/-- With the event found and a truthy (non-empty) override string that
does not parse (NaN), the page handler rejects with InvalidAmount. -/
theorem paymentPage_nan (catalog : List EventRecord) (eventId : String)
    (ev : EventRecord) (s : String)
    (hev : catalog.find? (fun e => e.eventId == eventId) = some ev)
    (hne : s ≠ "") (h : parseFloat s = none) :
    paymentPage catalog eventId (some s) = .invalidAmount := by
  simp only [paymentPage, hev, if_neg hne, h]

/-- With the event found and a truthy (non-empty) override string that
parses to a, the page handler runs the parse-stage test a ≤ 0 and then
the range-stage test, in the order of lines 221 and 234. -/
theorem paymentPage_some (catalog : List EventRecord) (eventId : String)
    (ev : EventRecord) (s : String) (a : ℚ)
    (hev : catalog.find? (fun e => e.eventId == eventId) = some ev)
    (hne : s ≠ "") (h : parseFloat s = some a) :
    paymentPage catalog eventId (some s) =
      (if a ≤ 0 then .invalidAmount
       else if a < 1 ∨ a > 10000 then .outOfRange
       else .page a (a * 100)) := by
  simp only [paymentPage, hev, if_neg hne, h]

/-- When the page handler does not render a checkout page, the client
script never runs, so `/process-payment` is never reached. -/
theorem checkoutFlow_stops (catalog : List EventRecord) (eventId : String) (pay : Option String)
    (token name email phone : String) (proc : ProcResponse)
    (h : ∀ a m, paymentPage catalog eventId pay ≠ .page a m) :
    checkoutFlow catalog eventId pay token name email phone proc = none := by
  unfold checkoutFlow
  cases hp : paymentPage catalog eventId pay with
  | notFound => rfl
  | invalidAmount => rfl
  | outOfRange => rfl
  | page a m => exact absurd hp (h a m)

/-! ### Claims -/

/-- Claim C1: for every event record in the catalog and every
caller-supplied override that parses to a number a with 1 ≤ a ≤ 10000,
the resolved checkout amount is exactly a (the override replaces the
catalog default cost) and the minor-unit amount posted onward is a * 100. -/
theorem override_amount_wins (catalog : List EventRecord) (eventId : String)
    (ev : EventRecord) (s : String) (a : ℚ)
    (hev : catalog.find? (fun e => e.eventId == eventId) = some ev)
    (hs : parseFloat s = some a) (h1 : 1 ≤ a) (h2 : a ≤ 10000) :
    paymentPage catalog eventId (some s) = .page a (a * 100) := by
  rw [paymentPage_some catalog eventId ev s a hev (parseFloat_some_nonempty s a hs) hs]
  rw [if_neg (by linarith : ¬ a ≤ 0)]
  rw [if_neg (by push_neg; exact ⟨h1, h2⟩ : ¬ (a < 1 ∨ a > 10000))]

/-- Witness for C1: override 450 on the RS2025AI event (catalog cost 299)
resolves to 450 with 45000 minor units. -/
theorem override_amount_wins_witness :
    paymentPage demoCatalog "RS2025AI" (some "450") = .page 450 45000 := by
  have h := override_amount_wins demoCatalog "RS2025AI"
    ⟨"RS2025AI", "AI Summit", "Flagship research summit", 299⟩ "450" 450
    (by rfl) parseFloat_450 (by norm_num) (by norm_num)
  rw [h]
  norm_num

/-- Claim C2 counterexample: an empty-string override (the query
`?pay=`) is not parseable as a number, yet amount resolution returns no
validation error: the `if (customPay)` truthiness guard of line 219 skips
validation entirely, the page renders with the catalog default, and the
charge submission is invoked. -/
theorem empty_override_bypasses_validation :
    parseFloat "" = none ∧
    paymentPage demoCatalog "RS2025AI" (some "") = .page 299 29900 ∧
    chargeSubmitted (checkoutFlow demoCatalog "RS2025AI" (some "") "tok_visa" "Ada"
      "ada@example.com" "5551234" (.charge "succeeded" "ch_123" "rcpt")) = true := by
  refine ⟨rfl, ?_, ?_⟩
  · simp +decide [paymentPage, demoCatalog]
    norm_num
  · simp +decide [chargeSubmitted, checkoutFlow, paymentPage, processPayment, demoCatalog]
    norm_num

/-- Claim C2 (amended): for every event present in the catalog and every
non-empty supplied override that does not parse to a number in [1, 10000]
(not parseable, or ≤ 0, or out of range), the page handler returns a
validation error and the charge submission is never invoked. The empty
string, although not parseable, is exempt: it is falsy, so the handler
silently uses the catalog default. -/
theorem invalid_override_blocks_charge (catalog : List EventRecord) (eventId : String)
    (ev : EventRecord) (s : String) (token name email phone : String) (proc : ProcResponse)
    (hev : catalog.find? (fun e => e.eventId == eventId) = some ev)
    (hne : s ≠ "")
    (hbad : ∀ a, parseFloat s = some a → a < 1 ∨ a > 10000) :
    (paymentPage catalog eventId (some s) = .invalidAmount ∨
      paymentPage catalog eventId (some s) = .outOfRange) ∧
    chargeSubmitted (checkoutFlow catalog eventId (some s) token name email phone proc) = false := by
  have hpage : paymentPage catalog eventId (some s) = .invalidAmount ∨
      paymentPage catalog eventId (some s) = .outOfRange := by
    rcases hp : parseFloat s with _ | a
    · exact Or.inl (paymentPage_nan catalog eventId ev s hev hne hp)
    · rw [paymentPage_some catalog eventId ev s a hev hne hp]
      by_cases h0 : a ≤ 0
      · rw [if_pos h0]
        exact Or.inl rfl
      · rw [if_neg h0, if_pos (hbad a hp)]
        exact Or.inr rfl
  refine ⟨hpage, ?_⟩
  rw [checkoutFlow_stops catalog eventId (some s) token name email phone proc ?_]
  · rfl
  · intro a m hm
    rcases hpage with h | h <;> rw [hm] at h <;> exact PageResult.noConfusion h

/-- Witness for C2 (amended): the override 0.5 (below the minimum 1) is
rejected and no charge is submitted. -/
theorem invalid_override_blocks_charge_witness :
    (paymentPage demoCatalog "RS2025AI" (some "0.5") = .invalidAmount ∨
      paymentPage demoCatalog "RS2025AI" (some "0.5") = .outOfRange) ∧
    chargeSubmitted (checkoutFlow demoCatalog "RS2025AI" (some "0.5") "tok_visa" "Ada"
      "ada@example.com" "5551234" (.charge "succeeded" "ch_123" "rcpt")) = false := by
  refine invalid_override_blocks_charge demoCatalog "RS2025AI"
    ⟨"RS2025AI", "AI Summit", "Flagship research summit", 299⟩ "0.5"
    "tok_visa" "Ada" "ada@example.com" "5551234" (.charge "succeeded" "ch_123" "rcpt")
    (by rfl) (by decide) ?_
  intro a h
  rw [parseFloat_half] at h
  have ha : (1 : ℚ) / 2 = a := Option.some.inj h
  left
  rw [← ha]
  norm_num

/-- Claim C3: validation of a supplied (truthy) override is two-stage in
a fixed order: the parse check (not parseable or ≤ 0, category
InvalidAmount) runs before the range check (outside [1, 10000], category
OutOfRange). In particular a value that is both ≤ 0 and out of range is
classified InvalidAmount, so malformed input is rejected with a category
distinct from merely out-of-bounds input. -/
theorem parse_check_precedes_range_check (catalog : List EventRecord) (eventId : String)
    (ev : EventRecord) (s : String)
    (hev : catalog.find? (fun e => e.eventId == eventId) = some ev)
    (hne : s ≠ "") :
    (parseFloat s = none → paymentPage catalog eventId (some s) = .invalidAmount) ∧
    (∀ a, parseFloat s = some a → a ≤ 0 →
      paymentPage catalog eventId (some s) = .invalidAmount) ∧
    (∀ a, parseFloat s = some a → 0 < a → (a < 1 ∨ a > 10000) →
      paymentPage catalog eventId (some s) = .outOfRange) := by
  refine ⟨fun h => paymentPage_nan catalog eventId ev s hev hne h, ?_, ?_⟩
  · intro a ha h0
    rw [paymentPage_some catalog eventId ev s a hev hne ha, if_pos h0]
  · intro a ha h0 hr
    rw [paymentPage_some catalog eventId ev s a hev hne ha,
      if_neg (by linarith : ¬ a ≤ 0), if_pos hr]

/-- Witness for C3: the override -5 satisfies both failure conditions
(it is ≤ 0 and below 1) and is classified InvalidAmount by the earlier
parse stage, while 20000 (parseable, positive, above 10000) is
classified OutOfRange by the later range stage. -/
theorem parse_check_precedes_range_check_witness :
    paymentPage demoCatalog "RS2025AI" (some "-5") = .invalidAmount ∧
    paymentPage demoCatalog "RS2025AI" (some "20000") = .outOfRange := by
  constructor
  · exact (parse_check_precedes_range_check demoCatalog "RS2025AI"
      ⟨"RS2025AI", "AI Summit", "Flagship research summit", 299⟩ "-5"
      (by rfl) (by decide)).2.1 (-5) parseFloat_neg5 (by norm_num)
  · exact (parse_check_precedes_range_check demoCatalog "RS2025AI"
      ⟨"RS2025AI", "AI Summit", "Flagship research summit", 299⟩ "20000"
      (by rfl) (by decide)).2.2 20000 parseFloat_20000 (by norm_num) (by norm_num)

/-- Once the cached `CONFIG` is truthy, no later call to
`getStripeConfig` fetches again. -/
theorem fetchCount_cached (os : List (Except Unit Js)) (c : Js) (h : jsTruthy c = true) :
    fetchCount os c = 0 := by
  induction os with
  | nil => rfl
  | cons o os ih => simp [fetchCount, getStripeConfigOnce, h, ih]

/-- Claim C4 counterexample: the claim that getStripeConfig performs at
most one remote fetch attempt per process lifetime is false. The guard
`if (!CONFIG)` of line 47 is a truthiness test: a first fetch that
succeeds with the JSON document `null` stores a falsy CONFIG, so the
second call fetches again (two attempts in two calls). -/
theorem falsy_config_refetches :
    ¬ ∀ outcomes : List (Except Unit Js), fetchCount outcomes Js.jnull ≤ 1 := by
  intro h
  have h2 := h [Except.ok Js.jnull, Except.ok Js.jnull]
  rw [show fetchCount [Except.ok Js.jnull, Except.ok Js.jnull] Js.jnull = 2 from rfl] at h2
  exact absurd h2 (by decide)

/-- Claim C4 (amended): provided every successful fetch yields a truthy
JSON value (any JSON object does), getStripeConfig fetches exactly once
over any number of calls: the first call always fetches (CONFIG starts
as null), and every later call returns the cached value without
re-fetching, even when the first fetch failed and the cached value is
the truthy empty fallback. Without that proviso a falsy fetched value
(null, false, 0 or the empty string) defeats the `if (!CONFIG)` guard
and later calls fetch again. -/
theorem config_fetched_at_most_once (outcomes : List (Except Unit Js))
    (h : ∀ v, Except.ok v ∈ outcomes → jsTruthy v = true) :
    fetchCount outcomes Js.jnull = min 1 outcomes.length := by
  cases outcomes with
  | nil => rfl
  | cons o os =>
    have hstep : fetchCount (o :: os) Js.jnull =
        1 + fetchCount os (getStripeConfigOnce o Js.jnull).1 := by
      cases o <;> rfl
    rw [hstep]
    have htruthy : jsTruthy (getStripeConfigOnce o Js.jnull).1 = true := by
      cases o with
      | ok v => exact h v (List.mem_cons_self _ os)
      | error e => rfl
    rw [fetchCount_cached os _ htruthy, List.length_cons]
    omega

/-- Witness for C4 (amended): a failed first fetch followed by a
successful fetch of a truthy object still gives exactly one attempt over
two calls. -/
theorem config_fetched_at_most_once_witness :
    fetchCount [Except.error (), Except.ok fallbackConfig] Js.jnull = 1 := by
  have h := config_fetched_at_most_once [Except.error (), Except.ok fallbackConfig] ?_
  · simpa using h
  · intro v hv
    rcases List.mem_cons.mp hv with h1 | h2
    · exact Except.noConfusion h1
    · rcases List.mem_cons.mp h2 with h3 | h4
      · rw [Except.ok.inj h3]
        rfl
      · exact absurd h4 (List.not_mem_nil _)

/-- Claim C5: for every eventId absent from a successfully fetched
catalog, the event-details route answers NotFound (a structured
response, the function is total and never throws), while a rejected
`loadEvents` (fetch or parse failure) is reported as a fetch failure, a
result distinct from NotFound. -/
theorem missing_event_notfound_vs_fetch_error (events : List EventRecord)
    (eventId : String) (e : LoadErr) :
    ((∀ ev ∈ events, ev.eventId ≠ eventId) →
      getEventById (Except.ok events) eventId = .notFound) ∧
    getEventById (Except.error e) eventId = .fetchFailure ∧
    EventApiResult.fetchFailure ≠ EventApiResult.notFound := by
  refine ⟨?_, rfl, by simp⟩
  intro h
  have hnone : events.find? (fun ev => ev.eventId == eventId) = none := by
    rw [List.find?_eq_none]
    intro ev hev
    simpa using h ev hev
  simp [getEventById, hnone]

/-- Witness for C5: the id RS2099X is not in the demo catalog and
resolves to NotFound; a fetch error on the same id is a fetch failure. -/
theorem missing_event_notfound_vs_fetch_error_witness :
    getEventById (Except.ok demoCatalog) "RS2099X" = .notFound ∧
    getEventById (Except.error LoadErr.fetchErr) "RS2099X" = .fetchFailure := by
  refine ⟨(missing_event_notfound_vs_fetch_error demoCatalog "RS2099X" LoadErr.fetchErr).1 ?_,
    (missing_event_notfound_vs_fetch_error demoCatalog "RS2099X" LoadErr.fetchErr).2.1⟩
  intro ev hev
  rcases List.mem_cons.mp hev with h1 | h2
  · rw [h1]
    decide
  · exact absurd h2 (List.not_mem_nil _)

/-- Claim C6: charge submission checks its preconditions before calling
the processor: a missing (falsy) field fails with the missing-fields
error, a present amount below 50 minor units fails locally with the
amount-too-small error, and an absent event fails with EventNotFound
after re-resolving the catalog; in each case the processor is not
invoked (the invocation component is none). -/
theorem charge_preconditions (catalog : List EventRecord)
    (token eventId name email phone : String) (amount : ℚ) (proc : ProcResponse) :
    ((token = "" ∨ eventId = "" ∨ name = "" ∨ email = "" ∨ phone = "" ∨ amount = 0) →
      processPayment catalog token eventId name email phone amount proc =
        (.missingFields, none)) ∧
    (token ≠ "" → eventId ≠ "" → name ≠ "" → email ≠ "" → phone ≠ "" → amount ≠ 0 →
      amount < 50 →
      processPayment catalog token eventId name email phone amount proc =
        (.amountTooSmall, none)) ∧
    (token ≠ "" → eventId ≠ "" → name ≠ "" → email ≠ "" → phone ≠ "" → amount ≠ 0 →
      ¬ amount < 50 →
      catalog.find? (fun e => e.eventId == eventId) = none →
      processPayment catalog token eventId name email phone amount proc =
        (.eventNotFound, none)) := by
  refine ⟨?_, ?_, ?_⟩
  · intro hC
    simp only [processPayment, if_pos hC]
  · intro ht he hn hm hp h0 h50
    have hC : ¬ (token = "" ∨ eventId = "" ∨ name = "" ∨ email = "" ∨ phone = "" ∨ amount = 0) := by
      simp [ht, he, hn, hm, hp, h0]
    simp only [processPayment, if_neg hC, if_pos h50]
  · intro ht he hn hm hp h0 h50 hfind
    have hC : ¬ (token = "" ∨ eventId = "" ∨ name = "" ∨ email = "" ∨ phone = "" ∨ amount = 0) := by
      simp [ht, he, hn, hm, hp, h0]
    simp only [processPayment, if_neg hC, if_neg h50, hfind]

/-- Witness for C6: an empty token gives missing fields; 20 minor units
gives amount-too-small; an unknown event id gives EventNotFound; in all
three cases the processor is not invoked. -/
theorem charge_preconditions_witness :
    processPayment demoCatalog "" "RS2025AI" "Ada" "ada@example.com" "5551234" 29900
      (.charge "succeeded" "ch_1" "rcpt") = (.missingFields, none) ∧
    processPayment demoCatalog "tok_visa" "RS2025AI" "Ada" "ada@example.com" "5551234" 20
      (.charge "succeeded" "ch_1" "rcpt") = (.amountTooSmall, none) ∧
    processPayment demoCatalog "tok_visa" "RS2099X" "Ada" "ada@example.com" "5551234" 29900
      (.charge "succeeded" "ch_1" "rcpt") = (.eventNotFound, none) := by
  refine ⟨(charge_preconditions demoCatalog "" "RS2025AI" "Ada" "ada@example.com" "5551234"
      29900 (.charge "succeeded" "ch_1" "rcpt")).1 (Or.inl rfl),
    (charge_preconditions demoCatalog "tok_visa" "RS2025AI" "Ada" "ada@example.com" "5551234"
      20 (.charge "succeeded" "ch_1" "rcpt")).2.1
      (by decide) (by decide) (by decide) (by decide) (by decide) (by norm_num) (by norm_num),
    (charge_preconditions demoCatalog "tok_visa" "RS2099X" "Ada" "ada@example.com" "5551234"
      29900 (.charge "succeeded" "ch_1" "rcpt")).2.2
      (by decide) (by decide) (by decide) (by decide) (by decide) (by norm_num) (by norm_num)
      (by rfl)⟩

/-- Claim C7: for every charge attempt that reaches the processor, a
reported status of succeeded yields a success result carrying the
processor charge id and receipt url; any other reported status yields
the declined failure (the ProcessorDeclined category). -/
theorem processor_status_classification (catalog : List EventRecord)
    (token eventId name email phone : String) (amount : ℚ) (ev : EventRecord)
    (status id url : String)
    (ht : token ≠ "") (he : eventId ≠ "") (hn : name ≠ "") (hm : email ≠ "")
    (hp : phone ≠ "") (h0 : amount ≠ 0) (h50 : ¬ amount < 50)
    (hev : catalog.find? (fun e => e.eventId == eventId) = some ev) :
    (status = "succeeded" →
      processPayment catalog token eventId name email phone amount (.charge status id url) =
        (.succeeded id url, some (round amount))) ∧
    (status ≠ "succeeded" →
      processPayment catalog token eventId name email phone amount (.charge status id url) =
        (.declined, some (round amount))) := by
  have hC : ¬ (token = "" ∨ eventId = "" ∨ name = "" ∨ email = "" ∨ phone = "" ∨ amount = 0) := by
    simp [ht, he, hn, hm, hp, h0]
  constructor
  · intro hs
    simp only [processPayment, if_neg hC, if_neg h50, hev, if_pos hs]
  · intro hs
    simp only [processPayment, if_neg hC, if_neg h50, hev, if_neg hs]

/-- Witness for C7: status succeeded with id ch_123 gives the success
result with chargeId ch_123; status pending gives the declined result. -/
theorem processor_status_classification_witness :
    processPayment demoCatalog "tok_visa" "RS2025AI" "Ada" "ada@example.com" "5551234" 29900
      (.charge "succeeded" "ch_123" "rcpt") = (.succeeded "ch_123" "rcpt", some 29900) ∧
    processPayment demoCatalog "tok_visa" "RS2025AI" "Ada" "ada@example.com" "5551234" 29900
      (.charge "pending" "ch_124" "rcpt") = (.declined, some 29900) := by
  have hround : round (29900 : ℚ) = 29900 := by norm_num [round_eq]
  constructor
  · have h := (processor_status_classification demoCatalog "tok_visa" "RS2025AI" "Ada"
      "ada@example.com" "5551234" 29900 ⟨"RS2025AI", "AI Summit", "Flagship research summit", 299⟩
      "succeeded" "ch_123" "rcpt"
      (by decide) (by decide) (by decide) (by decide) (by decide) (by norm_num) (by norm_num)
      (by rfl)).1 rfl
    rw [h, hround]
  · have h := (processor_status_classification demoCatalog "tok_visa" "RS2025AI" "Ada"
      "ada@example.com" "5551234" 29900 ⟨"RS2025AI", "AI Summit", "Flagship research summit", 299⟩
      "pending" "ch_124" "rcpt"
      (by decide) (by decide) (by decide) (by decide) (by decide) (by norm_num) (by norm_num)
      (by rfl)).2 (by decide)
    rw [h, hround]

/-- Claim C8: a processor exception during charge creation is mapped to
a failure result: a StripeCardError passes the processor message
through; a StripeInvalidRequestError yields the generic invalid-payment
message; a StripeAPIError yields the generic service-unavailable
message; every other error type yields the fixed generic payment-failed
message, independent of the internal exception message, so internal
detail never reaches the caller for unmapped kinds. -/
theorem processor_exception_mapping (catalog : List EventRecord)
    (token eventId name email phone : String) (amount : ℚ) (ev : EventRecord)
    (t m mm : String)
    (ht : token ≠ "") (he : eventId ≠ "") (hn : name ≠ "") (hm : email ≠ "")
    (hp : phone ≠ "") (h0 : amount ≠ 0) (h50 : ¬ amount < 50)
    (hev : catalog.find? (fun e => e.eventId == eventId) = some ev) :
    processPayment catalog token eventId name email phone amount (.exn t m) =
      (.processorError (mapStripeError t m), some (round amount)) ∧
    (t = "StripeCardError" → mapStripeError t m = m) ∧
    (t = "StripeInvalidRequestError" →
      mapStripeError t m = "Invalid payment information") ∧
    (t = "StripeAPIError" →
      mapStripeError t m = "Payment service temporarily unavailable") ∧
    (t ≠ "StripeCardError" → t ≠ "StripeInvalidRequestError" → t ≠ "StripeAPIError" →
      mapStripeError t m = "Payment failed. Please try again." ∧
        mapStripeError t m = mapStripeError t mm) := by
  have hC : ¬ (token = "" ∨ eventId = "" ∨ name = "" ∨ email = "" ∨ phone = "" ∨ amount = 0) := by
    simp [ht, he, hn, hm, hp, h0]
  refine ⟨by simp only [processPayment, if_neg hC, if_neg h50, hev], ?_, ?_, ?_, ?_⟩
  · intro h
    simp only [mapStripeError, if_pos h]
  · intro h
    simp +decide [mapStripeError, h]
  · intro h
    simp +decide [mapStripeError, h]
  · intro h1 h2 h3
    exact ⟨by simp only [mapStripeError, if_neg h1, if_neg h2, if_neg h3],
      by simp only [mapStripeError, if_neg h1, if_neg h2, if_neg h3]⟩

/-- Witness for C8: a card error with message `Your card was declined.`
passes that message through, and an unmapped StripeRateLimitError with
an internal message is replaced by the fixed generic message. -/
theorem processor_exception_mapping_witness :
    processPayment demoCatalog "tok_visa" "RS2025AI" "Ada" "ada@example.com" "5551234" 29900
      (.exn "StripeCardError" "Your card was declined.") =
      (.processorError "Your card was declined.", some 29900) ∧
    mapStripeError "StripeRateLimitError" "internal stack trace" =
      "Payment failed. Please try again." := by
  have hcard := processor_exception_mapping demoCatalog "tok_visa" "RS2025AI" "Ada"
    "ada@example.com" "5551234" 29900 ⟨"RS2025AI", "AI Summit", "Flagship research summit", 299⟩
    "StripeCardError" "Your card was declined." "other"
    (by decide) (by decide) (by decide) (by decide) (by decide) (by norm_num) (by norm_num)
    (by rfl)
  have hother := processor_exception_mapping demoCatalog "tok_visa" "RS2025AI" "Ada"
    "ada@example.com" "5551234" 29900 ⟨"RS2025AI", "AI Summit", "Flagship research summit", 299⟩
    "StripeRateLimitError" "internal stack trace" "other"
    (by decide) (by decide) (by decide) (by decide) (by decide) (by norm_num) (by norm_num)
    (by rfl)
  constructor
  · rw [hcard.1, hcard.2.1 rfl]
    norm_num [round_eq]
  · exact (hother.2.2.2.2 (by decide) (by decide) (by decide)).1

/-- Claim C9: every rendered checkout page posts exactly 100 times its
resolved major-unit amount, and every charge that reaches the processor
is created with the integer amount round(amount); hence a resolved
amount a is charged as the integer round(a * 100). -/
theorem minor_units_rounding (catalog : List EventRecord) (eventId : String)
    (pay : Option String) (token name email phone : String) (proc : ProcResponse) (a m : ℚ) :
    (paymentPage catalog eventId pay = .page a m → m = a * 100) ∧
    (token ≠ "" → eventId ≠ "" → name ≠ "" → email ≠ "" → phone ≠ "" →
      a * 100 ≠ 0 → ¬ a * 100 < 50 →
      (∃ ev, catalog.find? (fun e => e.eventId == eventId) = some ev) →
      (processPayment catalog token eventId name email phone (a * 100) proc).2 =
        some (round (a * 100))) := by
  constructor
  · intro hpage
    rcases hf : catalog.find? (fun e => e.eventId == eventId) with _ | ev
    · rw [show paymentPage catalog eventId pay = .notFound from by
        simp only [paymentPage, hf]] at hpage
      exact absurd hpage (by simp)
    · cases pay with
      | none =>
        rw [show paymentPage catalog eventId none = .page ev.cost (ev.cost * 100) from by
          simp only [paymentPage, hf]] at hpage
        injection hpage with h1 h2
        rw [← h2, h1]
      | some s =>
        by_cases hs : s = ""
        · rw [show paymentPage catalog eventId (some s) = .page ev.cost (ev.cost * 100) from by
            simp only [paymentPage, hf, if_pos hs]] at hpage
          injection hpage with h1 h2
          rw [← h2, h1]
        · rcases hp : parseFloat s with _ | b
          · rw [paymentPage_nan catalog eventId ev s hf hs hp] at hpage
            exact absurd hpage (by simp)
          · rw [paymentPage_some catalog eventId ev s b hf hs hp] at hpage
            split at hpage
            · exact absurd hpage (by simp)
            · split at hpage
              · exact absurd hpage (by simp)
              · injection hpage with h1 h2
                rw [← h2, h1]
  · intro ht he hn hm hp h0 h50 hex
    obtain ⟨ev, hev⟩ := hex
    have hC : ¬ (token = "" ∨ eventId = "" ∨ name = "" ∨ email = "" ∨ phone = "" ∨
        a * 100 = 0) := by
      simp [ht, he, hn, hm, hp, h0]
    cases proc with
    | charge st i u =>
      simp only [processPayment, if_neg hC, if_neg h50, hev]
      split <;> rfl
    | exn t2 m2 =>
      simp only [processPayment, if_neg hC, if_neg h50, hev]

/-- Witness for C9: the default checkout of the 299-cost event posts
29900, equal to 299 * 100, and the processor is invoked with the
integer round(299 * 100) = 29900. -/
theorem minor_units_rounding_witness :
    paymentPage demoCatalog "RS2025AI" none = .page 299 29900 ∧
    (29900 : ℚ) = 299 * 100 ∧
    (processPayment demoCatalog "tok_visa" "RS2025AI" "Ada" "ada@example.com" "5551234" 29900
      (.charge "succeeded" "ch_123" "rcpt")).2 = some 29900 := by
  have hpage : paymentPage demoCatalog "RS2025AI" none = .page 299 29900 := by
    simp +decide [paymentPage, demoCatalog]
    norm_num
  obtain ⟨h1, h2⟩ := minor_units_rounding demoCatalog "RS2025AI" none "tok_visa" "Ada"
    "ada@example.com" "5551234" (.charge "succeeded" "ch_123" "rcpt") 299 29900
  have hm : (29900 : ℚ) = 299 * 100 := h1 hpage
  have h3 := h2 (by decide) (by decide) (by decide) (by decide) (by decide)
    (by norm_num) (by norm_num) ⟨⟨"RS2025AI", "AI Summit", "Flagship research summit", 299⟩, rfl⟩
  refine ⟨hpage, hm, ?_⟩
  rw [hm, h3]
  norm_num [round_eq]

/-- Claim C10 counterexample: the amount-too-small error is not returned
exactly when 0 < amount < 50: a negative amount such as -10 is truthy,
passes the presence check, and is also reported amount-too-small. -/
theorem negative_amount_reported_too_small :
    (processPayment demoCatalog "tok_visa" "RS2025AI" "Ada" "ada@example.com" "5551234" (-10)
      (.charge "succeeded" "ch_1" "rcpt")).1 = .amountTooSmall ∧ ¬ (0 < (-10 : ℚ)) := by
  constructor
  · simp +decide [processPayment]
  · norm_num

/-- Claim C10 (amended): with the other request fields present, an
amount of 0 (falsy) is rejected with the missing-required-fields error,
not the amount-too-small error: the presence check runs before the
minimum-amount check, and the amount-too-small error is returned exactly
when the amount is non-zero and below 50 (this includes negative
amounts, not only 0 < amount < 50). -/
theorem presence_check_precedes_minimum (catalog : List EventRecord)
    (token eventId name email phone : String) (amount : ℚ) (proc : ProcResponse)
    (ht : token ≠ "") (he : eventId ≠ "") (hn : name ≠ "") (hm : email ≠ "")
    (hp : phone ≠ "") :
    processPayment catalog token eventId name email phone 0 proc = (.missingFields, none) ∧
    ((processPayment catalog token eventId name email phone amount proc).1 = .amountTooSmall ↔
      amount ≠ 0 ∧ amount < 50) := by
  have hzero : processPayment catalog token eventId name email phone 0 proc =
      (.missingFields, none) := by
    simp only [processPayment]
    rw [if_pos (by simp)]
  refine ⟨hzero, ?_, ?_⟩
  · intro hres
    by_cases h0 : amount = 0
    · rw [h0, hzero] at hres
      exact absurd hres (by simp)
    · by_cases h50 : amount < 50
      · exact ⟨h0, h50⟩
      · exfalso
        have hC : ¬ (token = "" ∨ eventId = "" ∨ name = "" ∨ email = "" ∨ phone = "" ∨
            amount = 0) := by
          simp [ht, he, hn, hm, hp, h0]
        simp only [processPayment, if_neg hC, if_neg h50] at hres
        rcases hf : catalog.find? (fun e => e.eventId == eventId) with _ | ev <;>
          simp only [hf] at hres
        · exact absurd hres (by simp)
        · cases proc with
          | charge st i u =>
            by_cases hs : st = "succeeded" <;> simp [hs] at hres
          | exn t2 m2 => simp at hres
  · rintro ⟨h0, h50⟩
    have hC : ¬ (token = "" ∨ eventId = "" ∨ name = "" ∨ email = "" ∨ phone = "" ∨
        amount = 0) := by
      simp [ht, he, hn, hm, hp, h0]
    simp only [processPayment, if_neg hC, if_pos h50]

/-- Witness for C10 (amended): amount 0 gives missing fields; amount 7
(non-zero, below 50) gives amount-too-small. -/
theorem presence_check_precedes_minimum_witness :
    processPayment demoCatalog "tok_visa" "RS2025AI" "Ada" "ada@example.com" "5551234" 0
      (.charge "succeeded" "ch_1" "rcpt") = (.missingFields, none) ∧
    (processPayment demoCatalog "tok_visa" "RS2025AI" "Ada" "ada@example.com" "5551234" 7
      (.charge "succeeded" "ch_1" "rcpt")).1 = .amountTooSmall := by
  have h := presence_check_precedes_minimum demoCatalog "tok_visa" "RS2025AI" "Ada"
    "ada@example.com" "5551234" 7 (.charge "succeeded" "ch_1" "rcpt")
    (by decide) (by decide) (by decide) (by decide) (by decide)
  exact ⟨h.1, h.2.mpr ⟨by norm_num, by norm_num⟩⟩

end PaymentGateway
